import Mathlib

/-!
Shallow embedding of the ShogunDashboard recording-orchestration core:
the HyperDeck protocol client (`src/hyperdeck/hyperdeck_client.py`), the
fleet manager (`src/hyperdeck/hyperdeck_manager.py`), the worker revision
(`src/hyperdeck/hyperdeck_worker.py`), the Shogun capture link
(`src/shogun/shogun_client.py`) and the orchestrator entry point
(`src/gui/main_window.py`).

Network I/O is modelled by an environment oracle: each protocol command
invocation is given a `CmdOutcome` (the device's reply, or a timeout), and
each Shogun API call an `ApiOutcome`.  Emitted Qt signals and commands
written to the wire are collected into explicit traces so that theorems can
speak about "which commands were sent" and "which events were emitted".

Protocol text is modelled as `List Char` (`Str`), with literals written via
`String.data`, so that every definition evaluates inside the kernel.
-/

namespace ShogunDashboard

/-- Python strings of the wire protocol, as explicit character lists. -/
abbrev Str := List Char

/-- A HyperDeck protocol response as built by `HyperDeckClient._receive` /
`_send_command`: the dict `{'error': ..., 'code': ..., 'lines': ...}`. -/
structure Response where
  error : Bool
  code : Nat
  lines : List Str
deriving Repr, DecidableEq

/-- Environment outcome of one `_send_command` exchange: either the device
replies (and `_receive` resolves the pending future with a `Response`), or
the 5-second deadline elapses (`asyncio.TimeoutError`). -/
inductive CmdOutcome where
  | reply (r : Response)
  | timeout
deriving Repr, DecidableEq

/-- The response `_send_command` hands back for a given outcome: the resolved
reply, or the synthetic `{'error': True, 'code': 0, 'lines': ['Timeout']}`. -/
def outcomeResp : CmdOutcome → Response
  | .reply r => r
  | .timeout => ⟨true, 0, ["Timeout".data]⟩

/-- Whether the outcome counts as command success,
Python `response and not response.get('error', True)`. -/
def outcomeOk (o : CmdOutcome) : Bool := !(outcomeResp o).error

/-- State of one `HyperDeckClient`: `transport` models `self._transport`
being non-`None`, `pending` models `self._response_future` being non-`None`,
`recording`/`status` mirror the fields of the same name. -/
structure HDClient where
  device_id : Nat
  transport : Bool
  recording : Bool
  pending : Bool
  status : List (Str × Str)
deriving Repr, DecidableEq

/-- Result of one `_send_command` call: the response handed to the caller
and whether the call first had to await a prior in-flight future
(`if self._response_future: await self._response_future`). -/
structure SendResult where
  resp : Response
  waited : Bool
deriving Repr, DecidableEq

/-- `HyperDeckClient._send_command`.  With no transport it returns the
`Not connected` error dict without touching the future slot.  Otherwise it
waits out any prior future, installs a fresh one, writes the command and
waits: on a reply the future's result is returned, on timeout the
`Timeout` error dict — and in every branch `self._response_future` is reset
to `None`, so the post-state has `pending := false`. -/
def send_command (st : HDClient) (o : CmdOutcome) : HDClient × SendResult :=
  if st.transport = false then
    (st, ⟨⟨true, 0, ["Not connected".data]⟩, false⟩)
  else
    ({ st with pending := false }, ⟨outcomeResp o, st.pending⟩)

/-- Qt signals a `HyperDeckClient` emits (device id left implicit: each
client owns its own trace). -/
inductive Event where
  | recording_signal (b : Bool)
  | status_signal (s : Str)
  | error_signal (msg : Str)
deriving Repr, DecidableEq

/-- Result of a client operation: post-state, returned boolean, commands
written to the wire, signals emitted. -/
structure OpResult where
  client : HDClient
  ok : Bool
  sent : List Str
  events : List Event
deriving Repr, DecidableEq

/-- Whether an emitted signal is the per-device `recording_signal`. -/
def isRecordingEvent : Event → Bool
  | .recording_signal _ => true
  | _ => false

/-- The command text `HyperDeckClient.record` sends:
`record: name: <name>` when a name is supplied, bare `record` otherwise. -/
def recordCommand : Option Str → Str
  | some n => "record: name: ".data ++ n
  | none => "record".data

/-- `HyperDeckClient.record`: without a transport it fails (`False`) and
sends nothing; otherwise it sends the record command, and on a non-error
response sets `self.recording = True` and emits `recording_signal(True)`;
on an error response it leaves the flag alone and emits `error_signal`. -/
def record (st : HDClient) (name : Option Str) (o : CmdOutcome) : OpResult :=
  if st.transport = false then
    ⟨st, false, [], []⟩
  else
    let p := send_command st o
    let success := !p.2.resp.error
    if success then
      ⟨{ p.1 with recording := true }, true, [recordCommand name],
        [.recording_signal true]⟩
    else
      ⟨p.1, false, [recordCommand name],
        [.error_signal ("Ошибка запуска записи: ".data ++
          p.2.resp.lines.headD "Неизвестная ошибка".data)]⟩

/-- `HyperDeckClient.stop`: without a transport it fails (`False`) and sends
nothing; otherwise it always sends `stop` (there is no check of
`self.recording`), and on a non-error response sets `self.recording = False`
and emits `recording_signal(False)`. -/
def stop (st : HDClient) (o : CmdOutcome) : OpResult :=
  if st.transport = false then
    ⟨st, false, [], []⟩
  else
    let p := send_command st o
    let success := !p.2.resp.error
    if success then
      ⟨{ p.1 with recording := false }, true, ["stop".data],
        [.recording_signal false]⟩
    else
      ⟨p.1, false, ["stop".data],
        [.error_signal ("Ошибка остановки записи: ".data ++
          p.2.resp.lines.headD "Неизвестная ошибка".data)]⟩

/-- Python `line.split(': ', 1)`: split at the first occurrence of the
two-character separator `": "`, `none` when the separator is absent. -/
def splitOnceColonSpace : Str → Option (Str × Str)
  | ':' :: ' ' :: rest => some ([], rest)
  | c :: rest =>
    match splitOnceColonSpace rest with
    | none => none
    | some p => some (c :: p.1, p.2)
  | [] => none

/-- One line of `transport info` output, unpacked as Python
`(name, value) = line.split(': ', 1)`; lines without the separator raise
`ValueError` and are skipped (`none`). -/
def parseStatusLine (line : Str) : Option (Str × Str) :=
  splitOnceColonSpace line

/-- The `self.status` dict built by `update_status` from `lines[1:]`. -/
def buildStatus (lines : List Str) : List (Str × Str) :=
  lines.filterMap parseStatusLine

/-- Python `dict.get`: the value of the last binding of `key`, if any. -/
def statusGet (pairs : List (Str × Str)) (key : Str) : Option Str :=
  pairs.foldl (fun acc p => if p.1 = key then some p.2 else acc) none

/-- Python `str.lower` on the ASCII strings the device sends. -/
def lowerStr (s : Str) : Str := s.map Char.toLower

/-- The recording bit `update_status` reads off a `transport info` reply:
`self.status.get('status', '').lower() == 'record'`. -/
def polledRecording (r : Response) : Bool :=
  lowerStr ((statusGet (buildStatus r.lines.tail) "status".data).getD []) == "record".data

/-- `HyperDeckClient.update_status`: without a transport it returns `{}`
untouched; otherwise it sends `transport info`; on a code-208 reply it
rebuilds `self.status` from `lines[1:]`, flips `self.recording` and emits
`recording_signal` only when the polled value differs, and always emits
`status_signal`; on any other reply `self.status` is left cleared and no
signal is emitted. -/
def update_status (st : HDClient) (o : CmdOutcome) : HDClient × List Event :=
  if st.transport = false then (st, [])
  else
    let p := send_command st o
    if p.2.resp.code = 208 then
      let status := buildStatus p.2.resp.lines.tail
      let is_recording := lowerStr ((statusGet status "status".data).getD []) == "record".data
      let status_text := (statusGet status "status".data).getD "unknown".data
      if is_recording != p.1.recording then
        ({ p.1 with recording := is_recording, status := status },
          [.recording_signal is_recording, .status_signal status_text])
      else
        ({ p.1 with status := status }, [.status_signal status_text])
    else
      ({ p.1 with status := [] }, [])

/-- `HyperDeckClient._receive`, reading from a prefix of the incoming line
stream (each element already `rstrip`-ed; a read error or EOF yields the
empty line).  The first line is read; if it is empty the result is `[]`; if
it ends in a colon, further lines are consumed and kept until the first
empty line; otherwise the response is exactly the first line. -/
def receiveLines (input : List Str) : List Str :=
  match input with
  | [] => []
  | first :: rest =>
    if first = [] then []
    else if first.getLast? = some ':' then
      first :: rest.takeWhile (fun l => l != [])
    else [first]

/-- What `_receive` does with a completed response when a pending future
exists: resolve it, or leave it untouched (asynchronous notification). -/
inductive ReceiveAction where
  | resolve (r : Response)
  | notification
deriving Repr, DecidableEq

/-- The classification at the heart of `_receive`:
`is_error = 100 <= code < 200`, `is_async = 500 <= code < 600`; an async
code does not resolve the pending command, every other code resolves it
with the `error` flag and the response lines. -/
def classifyCode (code : Nat) (lines : List Str) : ReceiveAction :=
  let is_error := decide (100 ≤ code ∧ code < 200)
  let is_async := decide (500 ≤ code ∧ code < 600)
  if is_async then .notification
  else .resolve ⟨is_error, code, lines⟩

/-- Decimal value of a digit character, `none` otherwise. -/
def digitVal? (c : Char) : Option Nat :=
  if '0' ≤ c && c ≤ '9' then some (c.toNat - '0'.toNat) else none

/-- Python `int(...)` on the non-negative all-digit tokens the protocol
produces; anything else raises `ValueError` (`none`). -/
def decDigits? (s : Str) : Option Nat :=
  match s with
  | [] => none
  | _ =>
    s.foldl
      (fun acc c =>
        match acc, digitVal? c with
        | some n, some d => some (10 * n + d)
        | _, _ => none)
      (some 0)

/-- `int(lines[0].split(' ', 1)[0])`: the leading token of the first line,
parsed as a decimal number. -/
def parseStatusCode (line : Str) : Option Nat :=
  decDigits? (line.takeWhile (fun c => c != ' '))

/-- `_receive`'s handling of a completed response while a pending future
exists: parse the status code from the first line and classify; a parse
failure feeds the exception to the future (modelled `none`). -/
def classifyFirstLine : List Str → Option ReceiveAction
  | [] => none
  | first :: restLines =>
    match parseStatusCode first with
    | none => none
    | some code => some (classifyCode code (first :: restLines))

/-! ## HyperDeckManager (`src/hyperdeck/hyperdeck_manager.py`) -/

/-- State of a `HyperDeckManager`: `self.devices` (a dict in insertion
order, modelled as an association list) and the fleet's own `recording`
flag. -/
structure Manager where
  devices : List (Nat × HDClient)
  recording : Bool
deriving Repr, DecidableEq

/-- The per-device name `HyperDeckManager.start_recording` builds:
`f"{name}_deck{device_id}"` when a base name is supplied, else `None`. -/
def deviceName (base : Option Str) (id : Nat) : Option Str :=
  base.map (fun n => n ++ "_deck".data ++ (toString id).data)

/-- The parallel `asyncio.gather` of `device.record(...)` over the fleet:
its per-device results (devices are independent, so the concurrent fan-out
is the pointwise application). -/
def startResults (devs : List (Nat × HDClient)) (base : Option Str)
    (recOut : Nat → CmdOutcome) : List (Nat × OpResult) :=
  devs.map (fun p => (p.1, record p.2 (deviceName base p.1) (recOut p.1)))

/-- The parallel `asyncio.gather` of `device.stop()` over the fleet. -/
def stopResults (devs : List (Nat × HDClient)) (stopOut : Nat → CmdOutcome) :
    List (Nat × OpResult) :=
  devs.map (fun p => (p.1, stop p.2 (stopOut p.1)))

/-- The wire trace of a fan-out: every command each device sent, tagged
with its device id. -/
def tracedSent (rs : List (Nat × OpResult)) : List (Nat × Str) :=
  rs.flatMap (fun p => p.2.sent.map (fun s => (p.1, s)))

/-- `HyperDeckManager.stop_recording`: with no devices it returns `False`
at once (leaving `self.recording` untouched); otherwise it fans `stop` out
to every device, reports success only if all succeeded, and sets
`self.recording = False` regardless. -/
def manager_stop_recording (m : Manager) (stopOut : Nat → CmdOutcome) :
    Manager × Bool × List (Nat × Str) :=
  if m.devices = [] then (m, false, [])
  else
    let ss := stopResults m.devices stopOut
    ({ devices := ss.map (fun p => (p.1, p.2.client)), recording := false },
      ss.all (fun p => p.2.ok), tracedSent ss)

/-- `HyperDeckManager.start_recording`: with no devices it returns `False`;
otherwise it fans `record` out to every device; if every device succeeded
it sets `self.recording = True` and returns `True`; if any failed it emits
per-device errors and calls `stop_recording()` — which stops **all**
devices and forces `self.recording = False` — then returns `False`. -/
def manager_start_recording (m : Manager) (base : Option Str)
    (recOut stopOut : Nat → CmdOutcome) : Manager × Bool × List (Nat × Str) :=
  if m.devices = [] then (m, false, [])
  else
    let rs := startResults m.devices base recOut
    let devs1 := rs.map (fun p => (p.1, p.2.client))
    if rs.all (fun p => p.2.ok) then
      ({ devices := devs1, recording := true }, true, tracedSent rs)
    else
      let ss := stopResults devs1 stopOut
      ({ devices := ss.map (fun p => (p.1, p.2.client)), recording := false },
        false, tracedSent rs ++ tracedSent ss)

/-! ## HyperDeckWorker (`src/hyperdeck/hyperdeck_worker.py`)

The worker is the second, divergent revision of the fleet (spec §9): its
`start_recording`/`stop_recording` loop sequentially over a device-id
subset and call `client.start_recording()` / `client.stop_recording()`. -/

/-- Modelled from the spec: `HyperDeckClient.start_recording` is invoked by
`HyperDeckWorker.start_recording` but no such method exists in
`src/hyperdeck/hyperdeck_client.py`; spec §4.1 specifies `startRecording`
as a thin wrapper over `sendCommand` that updates the local recording flag
on success — i.e. exactly the behaviour of `record` with no name. -/
def client_start_recording (st : HDClient) (o : CmdOutcome) : OpResult :=
  record st none o

/-- `HyperDeckWorker.start_recording(device_ids=None)` over all connected
devices: a sequential per-device loop; each success is reported via
`device_recording_signal`, each failure via `error_signal`; there is **no**
compensating stop and no aggregate result.  (The worker's own UI signals
are omitted; device state and the wire trace are kept.) -/
def worker_start_recording (devices : List (Nat × HDClient))
    (recOut : Nat → CmdOutcome) : List (Nat × HDClient) × List (Nat × Str) :=
  let rs := devices.map (fun p => (p.1, client_start_recording p.2 (recOut p.1)))
  (rs.map (fun p => (p.1, p.2.client)), tracedSent rs)

/-! ## ShogunWorker (`src/shogun/shogun_client.py`) -/

/-- Outcome of one Shogun API call: a success return, a `(False, msg)`
failure tuple, or a raised exception. -/
inductive ApiOutcome where
  | ok
  | err (msg : Str)
  | exn (msg : Str)
deriving Repr, DecidableEq

/-- Calls `ShogunWorker.stopcapture` makes against the `CaptureServices`
API. -/
inductive ShogunCall where
  | stop_capture
deriving Repr, DecidableEq

/-- `ShogunWorker.stopcapture`.  `ensureOk` is the result of
`ensure_connection()`, `recordingActive` the result of `check_shogun()`;
`o1` is the outcome of `self.capture.stop_capture(0)`, and on an exception
a single `reconnect_shogun()` (result `reconnectOk`) plus retry (`o2`) is
attempted.  It returns the success boolean together with the list of
`stop_capture` calls actually issued. -/
def stopcapture (ensureOk recordingActive : Bool) (o1 : ApiOutcome)
    (reconnectOk : Bool) (o2 : ApiOutcome) : Bool × List ShogunCall :=
  if ensureOk = false then (false, [])
  else if recordingActive = false then (true, [])
  else
    match o1 with
    | .ok => (true, [.stop_capture])
    | .err _ => (false, [.stop_capture])
    | .exn _ =>
      if reconnectOk then
        match o2 with
        | .ok => (true, [.stop_capture, .stop_capture])
        | .err _ => (false, [.stop_capture, .stop_capture])
        | .exn _ => (false, [.stop_capture, .stop_capture])
      else (false, [.stop_capture])

/-- `config.MAX_RECONNECT_ATTEMPTS` (`src/config.py`). -/
def MAX_RECONNECT_ATTEMPTS : Nat := 10

/-- `config.BASE_RECONNECT_DELAY` (`src/config.py`), in seconds. -/
def BASE_RECONNECT_DELAY : ℚ := 1

/-- `config.MAX_RECONNECT_DELAY` (`src/config.py`), in seconds. -/
def MAX_RECONNECT_DELAY : ℚ := 15

/-- The sleep `reconnect_shogun` performs after the failed attempt with
0-based index `failed` (Python's `attempt - 1` after the increment):
`min(base_delay * (1.5 ** (attempt - 1)), config.MAX_RECONNECT_DELAY)`.
Every value `1.5 ** k` for `k < 10` is an exact binary64 float, so exact
rational arithmetic reproduces the Python computation bit-for-bit. -/
def backoffDelay (failed : Nat) : ℚ :=
  min (BASE_RECONNECT_DELAY * (3 / 2 : ℚ) ^ failed) MAX_RECONNECT_DELAY

/-- The retry loop of `ShogunWorker.reconnect_shogun`, with explicit fuel
(the loop increments `attempt` each iteration, so
`MAX_RECONNECT_ATTEMPTS` fuel never runs out first).  `connectOk k` is the
outcome of the `connect_shogun()` call with 0-based index `k`; the
cancellation flag `self.running` is taken as `True` throughout.  Returns
(success, number of connect attempts performed, delays slept). -/
def reconnectAux (connectOk : Nat → Bool) (attempt fuel : Nat) :
    Bool × Nat × List ℚ :=
  match fuel with
  | 0 => (false, attempt, [])
  | fuel + 1 =>
    if attempt < MAX_RECONNECT_ATTEMPTS then
      if connectOk attempt then (true, attempt + 1, [])
      else
        let r := reconnectAux connectOk (attempt + 1) fuel
        (r.1, r.2.1, backoffDelay attempt :: r.2.2)
    else (false, attempt, [])

/-- `ShogunWorker.reconnect_shogun`: the backoff loop starting at
`attempt = 0`. -/
def reconnect_shogun (connectOk : Nat → Bool) : Bool × Nat × List ℚ :=
  reconnectAux connectOk 0 MAX_RECONNECT_ATTEMPTS

/-! ## Orchestrator (`src/gui/main_window.py`) -/

/-- Externally observable steps of `MainWindow.start_all_recordings`. -/
inductive OrchAction where
  | log_error (msg : Str)
  | log_warning (msg : Str)
  | shogun_start
  | hyperdeck_start
  | osc_notify
deriving Repr, DecidableEq

/-- `MainWindow.start_all_recordings`.  `shogunConnected` models
`self.shogun_worker and self.shogun_worker.connected`; `hyperdeckPresent`
models `self.hyperdeck_worker` being non-`None`; `hasDevices` is
`self.hyperdeck_worker.has_devices()`; `oscPresent` is `self.osc_server`
being non-`None`.  Returned is the sequence of observable actions (the
generated timestamp capture name does not affect control flow). -/
def start_all_recordings (shogunConnected hyperdeckEnabled hyperdeckPresent
    hasDevices oscPresent : Bool) : List OrchAction :=
  if shogunConnected = false then
    [.log_error "Cannot start recording - Shogun Live is not connected".data]
  else
    (if hyperdeckEnabled && hyperdeckPresent && !hasDevices then
      [.log_warning "No HyperDeck devices available - starting only Shogun recording".data]
    else []) ++
    [.shogun_start] ++
    (if hyperdeckEnabled && hyperdeckPresent then [.hyperdeck_start] else []) ++
    (if oscPresent then [.osc_notify] else [])

/-! ## Basic facts about the per-device operations -/

theorem record_client_transport (c : HDClient) (n : Option Str) (o : CmdOutcome) :
    (record c n o).client.transport = c.transport := by
  rcases htr : c.transport
  · simp [record, send_command, htr]
  · simp [record, send_command, htr]
    split <;> rfl

theorem record_ok_eq (c : HDClient) (n : Option Str) (o : CmdOutcome)
    (htr : c.transport = true) : (record c n o).ok = outcomeOk o := by
  simp [record, send_command, htr, outcomeOk]
  split <;> simp_all

theorem record_sent_eq (c : HDClient) (n : Option Str) (o : CmdOutcome)
    (htr : c.transport = true) : (record c n o).sent = [recordCommand n] := by
  simp [record, send_command, htr]
  split <;> rfl

theorem stop_client_transport (c : HDClient) (o : CmdOutcome) :
    (stop c o).client.transport = c.transport := by
  rcases htr : c.transport
  · simp [stop, send_command, htr]
  · simp [stop, send_command, htr]
    split <;> rfl

theorem stop_ok_eq (c : HDClient) (o : CmdOutcome) (htr : c.transport = true) :
    (stop c o).ok = outcomeOk o := by
  simp [stop, send_command, htr, outcomeOk]
  split <;> simp_all

theorem stop_sent_eq (c : HDClient) (o : CmdOutcome) (htr : c.transport = true) :
    (stop c o).sent = ["stop".data] := by
  simp [stop, send_command, htr]
  split <;> rfl

theorem stop_client_recording_eq (c : HDClient) (o : CmdOutcome) (htr : c.transport = true) :
    (stop c o).client.recording = (if outcomeOk o then false else c.recording) := by
  simp [stop, send_command, htr, outcomeOk]
  split <;> simp_all

theorem reconnectAux_attempts_le (ok : Nat → Bool) (f a : Nat) :
    (reconnectAux ok a f).2.1 ≤ a + f := by
  induction f generalizing a with
  | zero => simp [reconnectAux]
  | succ f ih =>
    simp only [reconnectAux]
    split
    · split
      · show a + 1 ≤ a + (f + 1)
        omega
      · show (reconnectAux ok (a + 1) f).2.1 ≤ a + (f + 1)
        have h := ih (a + 1)
        omega
    · show a ≤ a + (f + 1)
      omega

theorem reconnectAux_delay_getD (ok : Nat → Bool) (f : Nat) :
    ∀ a i, i < (reconnectAux ok a f).2.2.length →
      (reconnectAux ok a f).2.2.getD i 0 = backoffDelay (a + i) := by
  induction f with
  | zero => intro a i h; simp [reconnectAux] at h
  | succ f ih =>
    intro a i h
    by_cases hb : a < MAX_RECONNECT_ATTEMPTS
    · by_cases hok : ok a = true
      · simp [reconnectAux, hb, hok] at h
      · simp only [reconnectAux, if_pos hb, hok, Bool.false_eq_true, if_false] at h ⊢
        cases i with
        | zero => simp
        | succ i =>
          simp only [List.getD_cons_succ]
          have h' : i < (reconnectAux ok (a + 1) f).2.2.length := by
            simpa using h
          rw [ih (a + 1) i h']
          congr 1
          omega
    · simp [reconnectAux, hb] at h

/-! ## Claim theorems -/

/-- C2: for every reply whose first line starts with a 3-digit status code,
`_receive` routes codes in [500, 600) to the asynchronous-notification path
(the pending command is not resolved), routes codes in [100, 200) to the
command-failure path (resolved with `error = True`), and resolves the
pending command as success — carrying the response lines — for every other
code. -/
theorem response_classifier_bands (first : Str) (rest : List Str) (code : Nat)
    (hparse : parseStatusCode first = some code) (hlo : 100 ≤ code) (hhi : code ≤ 999) :
    classifyFirstLine (first :: rest) = some (classifyCode code (first :: rest)) ∧
    (500 ≤ code → code < 600 → classifyCode code (first :: rest) = .notification) ∧
    (code < 200 → classifyCode code (first :: rest) = .resolve ⟨true, code, first :: rest⟩) ∧
    (200 ≤ code → code < 500 ∨ 600 ≤ code →
      classifyCode code (first :: rest) = .resolve ⟨false, code, first :: rest⟩) := by
  refine ⟨by simp [classifyFirstLine, hparse], ?_, ?_, ?_⟩
  · intro h1 h2
    have ha : decide (500 ≤ code ∧ code < 600) = true := by simp [h1, h2]
    simp [classifyCode, ha]
  · intro h
    have ha : decide (500 ≤ code ∧ code < 600) = false := by simp; omega
    have he : decide (100 ≤ code ∧ code < 200) = true := by simp [hlo, h]
    simp [classifyCode, ha, he]
  · intro h1 h2
    have ha : decide (500 ≤ code ∧ code < 600) = false := by simp; omega
    have he : decide (100 ≤ code ∧ code < 200) = false := by simp; omega
    simp [classifyCode, ha, he]

/-- C2 witness: the classifier at a concrete 5xx reply. -/
theorem response_classifier_bands_witness :
    (100 ≤ 504 ∧ parseStatusCode "504 remote disabled".data = some 504) ∧
    classifyFirstLine ["504 remote disabled".data] = some .notification := by
  have h := response_classifier_bands "504 remote disabled".data [] 504
    (by decide) (by decide) (by decide)
  exact ⟨⟨by decide, by decide⟩, by rw [h.1, h.2.1 (by decide) (by decide)]⟩

/-- C3: for every received response, a first line ending in a colon makes
`_receive` keep consuming lines up to the blank terminating line and return
all of them; a first line not ending in a colon is returned alone. -/
theorem receive_multiline_protocol (first : Str) (rest : List Str) (hne : first ≠ []) :
    (first.getLast? = some ':' →
      receiveLines (first :: rest) = first :: rest.takeWhile (fun l => l != [])) ∧
    (first.getLast? ≠ some ':' → receiveLines (first :: rest) = [first]) := by
  constructor <;> intro h <;> simp [receiveLines, hne, h]

/-- C3 witness: a concrete multi-line and a concrete single-line read. -/
theorem receive_multiline_protocol_witness :
    receiveLines ["205 clips:".data, "2".data, "0 a".data, [], "late".data] =
      ["205 clips:".data, "2".data, "0 a".data] ∧
    receiveLines ["200 ok".data, "junk".data] = ["200 ok".data] := by
  constructor
  · have h := (receive_multiline_protocol "205 clips:".data
      ["2".data, "0 a".data, [], "late".data] (by decide)).1 (by decide)
    rw [h]; decide
  · have h := (receive_multiline_protocol "200 ok".data ["junk".data] (by decide)).2 (by decide)
    rw [h]

/-- C4: a command that times out yields the `Timeout` error response and
clears the single pending-command slot, so the next `_send_command` does
not have to wait on the timed-out one. -/
theorem send_command_timeout_clears_pending (st : HDClient) (o' : CmdOutcome)
    (htr : st.transport = true) :
    (send_command st .timeout).2.resp = ⟨true, 0, ["Timeout".data]⟩ ∧
    (send_command st .timeout).1.pending = false ∧
    (send_command (send_command st .timeout).1 o').2.waited = false := by
  simp [send_command, htr, outcomeResp]

/-- C4 witness: a concrete connected client with an in-flight future. -/
theorem send_command_timeout_clears_pending_witness :
    (send_command ⟨1, true, false, true, []⟩ .timeout).2.resp = ⟨true, 0, ["Timeout".data]⟩ ∧
    (send_command (send_command ⟨1, true, false, true, []⟩ .timeout).1
      (.reply ⟨false, 200, ["200 ok".data]⟩)).2.waited = false := by
  have h := send_command_timeout_clears_pending ⟨1, true, false, true, []⟩
    (.reply ⟨false, 200, ["200 ok".data]⟩) (by decide)
  exact ⟨h.1, h.2.2⟩

/-- C5: when the capture source is not connected,
`MainWindow.start_all_recordings` only logs the descriptive error and
performs no operation on either the capture source or the recorder fleet. -/
theorem start_all_requires_shogun_connected (he hp hd op : Bool) :
    start_all_recordings false he hp hd op =
      [.log_error "Cannot start recording - Shogun Live is not connected".data] ∧
    OrchAction.shogun_start ∉ start_all_recordings false he hp hd op ∧
    OrchAction.hyperdeck_start ∉ start_all_recordings false he hp hd op := by
  refine ⟨rfl, ?_, ?_⟩ <;> simp [start_all_recordings]

/-- C6: in every reconnect cycle the delay slept after 1-indexed failed
attempt `n` (that is, before attempt `n + 1`) equals
`min(1s * 1.5 ^ (n - 1), 15s)` — the list entry at 0-based index `i`
corresponds to `n = i + 1` — and the cycle performs at most 10 connect
attempts. -/
theorem reconnect_backoff_schedule (connectOk : Nat → Bool) (i : Nat)
    (h : i < (reconnect_shogun connectOk).2.2.length) :
    (reconnect_shogun connectOk).2.2.getD i 0 =
      min (BASE_RECONNECT_DELAY * (3 / 2 : ℚ) ^ ((i + 1) - 1)) MAX_RECONNECT_DELAY ∧
    (reconnect_shogun connectOk).2.1 ≤ MAX_RECONNECT_ATTEMPTS := by
  constructor
  · have hg := reconnectAux_delay_getD connectOk MAX_RECONNECT_ATTEMPTS 0 i
      (by simpa [reconnect_shogun] using h)
    simpa [reconnect_shogun, backoffDelay] using hg
  · have hc := reconnectAux_attempts_le connectOk MAX_RECONNECT_ATTEMPTS 0
    simpa [reconnect_shogun] using hc

/-- C6 witness: the 8th delay of an all-failing cycle (which the cap fixes
at 15 s). -/
theorem reconnect_backoff_schedule_witness :
    7 < (reconnect_shogun (fun _ => false)).2.2.length ∧
    (reconnect_shogun (fun _ => false)).2.2.getD 7 0 =
      min (BASE_RECONNECT_DELAY * (3 / 2 : ℚ) ^ ((7 + 1) - 1)) MAX_RECONNECT_DELAY :=
  ⟨by decide, (reconnect_backoff_schedule (fun _ => false) 7 (by decide)).1⟩

/-- C10: `record` and `stop` return a failure value rather than raising,
and the client's `recording` flag is changed only on a confirmed successful
response — on any failure (no connection, device rejection, timeout) it
keeps its prior value. -/
theorem failed_op_preserves_recording_flag (st : HDClient) (name : Option Str) (o : CmdOutcome) :
    (record st name o).client.recording = (if (record st name o).ok then true else st.recording) ∧
    (stop st o).client.recording = (if (stop st o).ok then false else st.recording) := by
  rcases htr : st.transport
  · simp [record, stop, send_command, htr]
  · simp [record, stop, send_command, htr]
    constructor <;> split <;> simp_all

/-- C7 counterexample: a connected HyperDeck client whose `recording` flag
is `false` still has `stop` write the `stop` command to the wire — the
underlying protocol command is not skipped — and whether the call reports
success is dictated by the device's reply, which may be a failure. -/
theorem stop_sends_command_when_idle :
    (⟨1, true, false, false, []⟩ : HDClient).recording = false ∧
    (stop ⟨1, true, false, false, []⟩ (.reply ⟨false, 200, ["200 ok".data]⟩)).sent
      = ["stop".data] ∧
    (stop ⟨1, true, false, false, []⟩ (.reply ⟨true, 107, ["107 timeline empty".data]⟩)).ok
      = false := by decide

/-- C7 amended: the already-stopped idempotent short-circuit exists only on
the capture-source side — `ShogunWorker.stopcapture` returns success
without issuing `stop_capture` when no capture is active — while the
HyperDeck client's `stop` always sends the `stop` command when connected. -/
theorem stopcapture_idempotent_capture_source (o1 o2 : ApiOutcome) (rok : Bool)
    (c : HDClient) (o : CmdOutcome) (htr : c.transport = true) :
    stopcapture true false o1 rok o2 = (true, []) ∧
    (stop c o).sent = ["stop".data] :=
  ⟨rfl, stop_sent_eq c o htr⟩

/-- C7 witness: the amended statement at a concrete connected client. -/
theorem stopcapture_idempotent_capture_source_witness :
    stopcapture true false .ok true .ok = (true, []) ∧
    (stop ⟨1, true, true, false, []⟩ (.reply ⟨false, 200, ["200 ok".data]⟩)).sent
      = ["stop".data] :=
  stopcapture_idempotent_capture_source .ok .ok true ⟨1, true, true, false, []⟩
    (.reply ⟨false, 200, ["200 ok".data]⟩) (by decide)

/-- C8 counterexample: `HyperDeckManager.stop_recording` invoked on a fleet
with no devices returns `False` immediately and leaves the fleet's
`recording` flag `True`. -/
theorem manager_stop_empty_fleet_keeps_flag :
    (manager_stop_recording ⟨[], true⟩
      (fun _ => .reply ⟨false, 200, ["200 ok".data]⟩)).1.recording = true ∧
    (manager_stop_recording ⟨[], true⟩
      (fun _ => .reply ⟨false, 200, ["200 ok".data]⟩)).2.1 = false := by decide

/-- C8 amended: for every invocation of `HyperDeckManager.stop_recording`
on a fleet with at least one device, the fleet's own `recording` flag is
`False` after the call, regardless of how the per-device stops fared; an
empty-fleet invocation returns early and leaves the flag unchanged. -/
theorem manager_stop_clears_recording_flag (m : Manager) (stopOut : Nat → CmdOutcome)
    (h : m.devices ≠ []) :
    (manager_stop_recording m stopOut).1.recording = false := by
  simp [manager_stop_recording, h]

/-- C8 witness: a one-device fleet whose stop command times out still ends
with the fleet flag cleared. -/
theorem manager_stop_clears_recording_flag_witness :
    ([(1, (⟨1, true, true, false, []⟩ : HDClient))] ≠ ([] : List (Nat × HDClient))) ∧
    (manager_stop_recording ⟨[(1, ⟨1, true, true, false, []⟩)], true⟩
      (fun _ => .timeout)).1.recording = false :=
  ⟨by decide, manager_stop_clears_recording_flag ⟨[(1, ⟨1, true, true, false, []⟩)], true⟩
    (fun _ => .timeout) (by decide)⟩

/-- C9 counterexample: two consecutive successful `record` commands each
emit `recording_signal True` — the second one carries the same value as the
previously emitted one, so command wrappers are not edge-triggered. -/
theorem record_reemits_same_recording_value :
    (record ⟨1, true, false, false, []⟩ none (.reply ⟨false, 200, ["200 ok".data]⟩)).events
      = [.recording_signal true] ∧
    (record (record ⟨1, true, false, false, []⟩ none
        (.reply ⟨false, 200, ["200 ok".data]⟩)).client none
        (.reply ⟨false, 200, ["200 ok".data]⟩)).events
      = [.recording_signal true] := by decide

/-- C9 amended: only the status poll is edge-triggered — `update_status`
emits `recording_signal` exactly when a code-208 reply's polled recording
value differs from the current flag — whereas successful `record` and
`stop` commands emit `recording_signal` unconditionally. -/
theorem recording_event_edge_poll_unconditional_commands (st : HDClient) (o : CmdOutcome)
    (name : Option Str) (htr : st.transport = true) :
    ((update_status st o).2.any isRecordingEvent = true ↔
      ((outcomeResp o).code = 208 ∧ polledRecording (outcomeResp o) ≠ st.recording)) ∧
    ((record st name o).ok = true → (record st name o).events = [.recording_signal true]) ∧
    ((stop st o).ok = true → (stop st o).events = [.recording_signal false]) := by
  refine ⟨?_, ?_, ?_⟩
  · by_cases hc : (outcomeResp o).code = 208
    · by_cases hrec : polledRecording (outcomeResp o) = st.recording
      · simp [update_status, send_command, htr, hc, polledRecording] at hrec ⊢
        simp [hrec, isRecordingEvent]
      · simp [update_status, send_command, htr, hc, polledRecording] at hrec ⊢
        simp [hrec, isRecordingEvent]
    · simp [update_status, send_command, htr, hc, isRecordingEvent]
  · intro hok
    simp [record, send_command, htr] at hok ⊢
    split at hok <;> simp_all
  · intro hok
    simp [stop, send_command, htr] at hok ⊢
    split at hok <;> simp_all

/-- C9 witness: a non-recording client polling a `status: record` reply has
the poll emit the (changed) recording event. -/
theorem recording_event_edge_poll_unconditional_commands_witness :
    (update_status ⟨1, true, false, false, []⟩
        (.reply ⟨false, 208, ["208 transport info:".data, "status: record".data]⟩)).2.any
      isRecordingEvent = true :=
  (recording_event_edge_poll_unconditional_commands ⟨1, true, false, false, []⟩
    (.reply ⟨false, 208, ["208 transport info:".data, "status: record".data]⟩) none
    (by decide)).1.mpr ⟨by decide, by decide⟩

/-- C1 counterexample: the worker revision of the fleet start
(`HyperDeckWorker.start_recording`, the one the orchestrator invokes) —
with two connected devices of which device 1's start succeeds and device
2's fails — issues no compensating `stop`, and device 1 remains in the
recording state after the call. -/
theorem worker_start_leaves_partial_recording :
    worker_start_recording
        [(1, ⟨1, true, false, false, []⟩), (2, ⟨2, true, false, false, []⟩)]
        (fun i => if i = 1 then .reply ⟨false, 200, ["200 ok".data]⟩
          else .reply ⟨true, 107, ["107 timeline empty".data]⟩) =
      ([(1, ⟨1, true, true, false, []⟩), (2, ⟨2, true, false, false, []⟩)],
        [(1, "record".data), (2, "record".data)]) := by decide

/-- C1 amended: the all-or-nothing policy holds for the
`HyperDeckManager.start_recording` revision of the fleet: on a fleet of
N ≥ 2 connected devices where some start fails while another succeeds, and
whose stop commands are answered successfully, the call returns an
aggregate failure, issues a compensating `stop` to every device whose start
reported success (indeed to every device), and afterwards the fleet flag
and every device's `recording` flag are `False`. -/
theorem manager_start_all_or_nothing (m : Manager) (base : Option Str)
    (recOut stopOut : Nat → CmdOutcome)
    (hN : 2 ≤ m.devices.length)
    (htr : ∀ p ∈ m.devices, p.2.transport = true)
    (hstop : ∀ p ∈ m.devices, outcomeOk (stopOut p.1) = true)
    (hfail : ∃ p ∈ m.devices, outcomeOk (recOut p.1) = false)
    (_hsucc : ∃ p ∈ m.devices, outcomeOk (recOut p.1) = true) :
    (manager_start_recording m base recOut stopOut).2.1 = false ∧
    (manager_start_recording m base recOut stopOut).1.recording = false ∧
    (∀ q ∈ (manager_start_recording m base recOut stopOut).1.devices,
      q.2.recording = false) ∧
    (∀ p ∈ m.devices, outcomeOk (recOut p.1) = true →
      (p.1, "stop".data) ∈ (manager_start_recording m base recOut stopOut).2.2) := by
  have hne : m.devices ≠ [] := by
    intro h0; rw [h0] at hN; simp at hN
  obtain ⟨pf, hpf, hpffail⟩ := hfail
  have hall : (startResults m.devices base recOut).all (fun p => p.2.ok) = false := by
    rw [Bool.eq_false_iff]
    intro hall
    have hmem : (pf.1, record pf.2 (deviceName base pf.1) (recOut pf.1)) ∈
        startResults m.devices base recOut :=
      List.mem_map.mpr ⟨pf, hpf, rfl⟩
    have hok := List.all_eq_true.mp hall _ hmem
    rw [record_ok_eq _ _ _ (htr pf hpf)] at hok
    rw [hok] at hpffail
    simp at hpffail
  have hdevs1 : (startResults m.devices base recOut).map (fun p => (p.1, p.2.client))
      = m.devices.map (fun p =>
          (p.1, (record p.2 (deviceName base p.1) (recOut p.1)).client)) := by
    simp only [startResults, List.map_map]
    rfl
  have hss : stopResults (m.devices.map (fun p =>
        (p.1, (record p.2 (deviceName base p.1) (recOut p.1)).client))) stopOut
      = m.devices.map (fun p => (p.1,
          stop (record p.2 (deviceName base p.1) (recOut p.1)).client (stopOut p.1))) := by
    simp only [stopResults, List.map_map]
    rfl
  simp only [manager_start_recording, hne, if_false, hall, Bool.false_eq_true, ite_false,
    hdevs1, hss, List.map_map]
  refine ⟨by trivial, by trivial, ?_, ?_⟩
  · intro q hq
    obtain ⟨p, hp, hpq⟩ := List.mem_map.mp hq
    subst hpq
    have htrp : (record p.2 (deviceName base p.1) (recOut p.1)).client.transport = true := by
      rw [record_client_transport]; exact htr p hp
    show (stop (record p.2 (deviceName base p.1) (recOut p.1)).client
      (stopOut p.1)).client.recording = false
    rw [stop_client_recording_eq _ _ htrp, hstop p hp]
    simp
  · intro p hp _
    apply List.mem_append_right
    apply List.mem_flatMap.mpr
    refine ⟨(p.1, stop (record p.2 (deviceName base p.1) (recOut p.1)).client (stopOut p.1)),
      List.mem_map.mpr ⟨p, hp, rfl⟩, ?_⟩
    have htrp : (record p.2 (deviceName base p.1) (recOut p.1)).client.transport = true := by
      rw [record_client_transport]; exact htr p hp
    show (p.1, "stop".data) ∈ (stop (record p.2 (deviceName base p.1) (recOut p.1)).client
      (stopOut p.1)).sent.map (fun s => (p.1, s))
    rw [stop_sent_eq _ _ htrp]
    simp

/-- C1 witness: the amended statement at a concrete two-device fleet where
device 1 succeeds and device 2 fails: the aggregate result is failure and
the succeeded device 1 is sent a compensating `stop`. -/
theorem manager_start_all_or_nothing_witness :
    (manager_start_recording
        ⟨[(1, ⟨1, true, false, false, []⟩), (2, ⟨2, true, false, false, []⟩)], false⟩ none
        (fun i => if i = 1 then .reply ⟨false, 200, ["200 ok".data]⟩
          else .reply ⟨true, 107, ["107 timeline empty".data]⟩)
        (fun _ => .reply ⟨false, 200, ["200 ok".data]⟩)).2.1 = false ∧
    (1, "stop".data) ∈ (manager_start_recording
        ⟨[(1, ⟨1, true, false, false, []⟩), (2, ⟨2, true, false, false, []⟩)], false⟩ none
        (fun i => if i = 1 then .reply ⟨false, 200, ["200 ok".data]⟩
          else .reply ⟨true, 107, ["107 timeline empty".data]⟩)
        (fun _ => .reply ⟨false, 200, ["200 ok".data]⟩)).2.2 := by
  have h := manager_start_all_or_nothing
    ⟨[(1, ⟨1, true, false, false, []⟩), (2, ⟨2, true, false, false, []⟩)], false⟩ none
    (fun i => if i = 1 then .reply ⟨false, 200, ["200 ok".data]⟩
      else .reply ⟨true, 107, ["107 timeline empty".data]⟩)
    (fun _ => .reply ⟨false, 200, ["200 ok".data]⟩)
    (by decide) (by decide) (by decide) (by decide) (by decide)
  exact ⟨h.1, h.2.2.2 (1, ⟨1, true, false, false, []⟩) (by decide) (by decide)⟩

end ShogunDashboard
